import Mathlib

/-!
Verification development for the EVM_Transfer repository (`client.py`, `main.py`).

The embedding below translates `client.py` into Lean. Every RPC round trip
(`eth.chain_id`, `eth.get_transaction_count`, `eth.gas_price`,
`eth.max_priority_fee`, `eth.estimate_gas`, `eth.get_balance`, the token
contract's `decimals()` and `balanceOf()` calls, the simulated `transfer`
build) is an external collaborator; its successful answer is a field of an
`Env` record, and the failure modes that the claims mention are `Env`
fields as well.  Python exceptions become `Except` values.  Exact
`decimal.Decimal` arithmetic becomes `ℚ`; Python's binary floating point
(used by `client.py` only in the `* 1.05` fee markup) is modelled exactly as
IEEE-754 binary64 rounding of rationals.
-/

namespace EVMTransfer

/-- The rational value of the IEEE-754 binary64 double written `1.05` in
Python source text (`0x1.0cccccccccccdp+0`): the markup constant of
`client.py` lines 88 and 99. -/
def float105 : ℚ := 4728779608739021 / 2 ^ 52

/-- Round a rational to the nearest integer, ties to even — the rounding of
IEEE-754 binary64 arithmetic. -/
def roundNearestEven (x : ℚ) : ℤ :=
  let f := ⌊x⌋
  let r := x - (f : ℚ)
  if r < 1 / 2 then f
  else if 1 / 2 < r then f + 1
  else if f % 2 = 0 then f else f + 1

/-- Fuelled binary logarithm, structurally recursive so that it reduces in
the kernel. -/
def log2fuel : ℕ → ℕ → ℕ
  | 0, _ => 0
  | fuel + 1, n => if 2 ≤ n then log2fuel fuel (n / 2) + 1 else 0

/-- Floor of the base-2 logarithm of a natural number. -/
def natLog2 (n : ℕ) : ℕ := log2fuel n n

/-- Round a nonnegative rational to the nearest IEEE-754 binary64 value
(53-bit significand, ties to even), as a rational.  Faithful for inputs that
are `0` or at least `1`, which covers every value the fee computation of
`client.py` feeds it (integers and integer-times-1.05 products); exponent
overflow to infinity is not modelled. -/
def rnd53 (q : ℚ) : ℚ :=
  if q < 1 then q
  else
    let e : ℕ := natLog2 (Int.toNat ⌊q⌋)
    (roundNearestEven (q * 2 ^ 52 / 2 ^ e) : ℚ) * 2 ^ e / 2 ^ 52

/-- Python's `int()` on a rational-valued number: truncation toward zero. -/
def truncToward0 (q : ℚ) : ℤ := if q < 0 then ⌈q⌉ else ⌊q⌋

/-- Python's `int(n * 1.05)` for a nonnegative Python `int` `n`: the `int`
converts to a binary64 double, multiplies by the double `1.05` with IEEE
round-to-nearest-even, and the result truncates toward zero.  This is the
fee markup of `client.py` lines 88 (`max_fee`) and 99 (`gas_price`). -/
def pyTimes105 (n : ℕ) : ℤ := truncToward0 (rnd53 (rnd53 (n : ℚ) * float105))

/-- Lookup table `unit_names` shared by `Client.to_wei` and `Client.from_wei`
(`client.py` lines 42-48 and 57-63): decimals 6, 9, 18 map to the web3 unit
names, anything else to `None`. -/
def unit_name (decimals : ℕ) : Option String :=
  if decimals = 6 then some ("mwei")
  else if decimals = 9 then some ("gwei")
  else if decimals = 18 then some ("ether")
  else none

/-- Modelled from the spec: `web3.to_wei` (external library, not in `src/`)
converts an exact decimal amount to base units by exact decimal
multiplication with the unit's scale `10 ^ decimals` followed by `int()`
truncation; spec §4.1 requires all arithmetic in exact decimal or
scaled-integer form, with no binary floating point. -/
def web3_to_wei (value : ℚ) (decimals : ℕ) : ℤ :=
  truncToward0 (value * 10 ^ decimals)

/-- Modelled from the spec: `web3.from_wei` (external library, not in
`src/`) divides the base-unit integer by the unit's scale `10 ^ decimals`
in exact decimal arithmetic. -/
def web3_from_wei (value : ℤ) (decimals : ℕ) : ℚ :=
  (value : ℚ) / 10 ^ decimals

/-- Error outcomes of `client.py` that the claims mention.  The three
shortfall constructors and `insufficientFundsFallback` correspond to the
four bare `raise` statements (lines 160, 172, 178 and 121); their arguments
record the value interpolated into the `logger.error` message emitted just
before the `raise` — the raised Python exception itself carries no payload
there (see `carries_payload_to_caller`). -/
inductive ClientError where
  | unsupportedPrecision (decimals : ℕ)
  | contractBindError (reason : String)
  | contractLogicError (reason : String)
  | gasShortfall (gas_cost : ℚ)
  | tokenShortfall (contract_balance : ℚ)
  | combinedShortfall (value : ℚ)
  | insufficientFundsFallback
  | confirmationTimeout
  deriving DecidableEq, Repr

/-- Whether the Python exception propagated to the caller on this failure
path carries any payload.  `ValueError(...)` (lines 52, 67), the re-raised
`ContractLogicError` (line 112), ABI-load failures and the re-raised
`TimeExhausted` (line 148) all carry a message; the bare `raise` statements
at lines 121, 160, 172 and 178 raise a `RuntimeError` with no active
exception and hence no payload. -/
def carries_payload_to_caller : ClientError → Bool
  | .unsupportedPrecision _ => true
  | .contractBindError _ => true
  | .contractLogicError _ => true
  | .gasShortfall _ => false
  | .tokenShortfall _ => false
  | .combinedShortfall _ => false
  | .insufficientFundsFallback => false
  | .confirmationTimeout => true

/-- Model of `Client.to_wei` (`client.py` lines 41-54): look up the unit
name for `decimals`; raise `ValueError` if there is none, otherwise
delegate to `web3.to_wei`. -/
def to_wei (value : ℚ) (decimals : ℕ) : Except ClientError ℤ :=
  match unit_name decimals with
  | none => .error (.unsupportedPrecision decimals)
  | some _ => .ok (web3_to_wei value decimals)

/-- Model of `Client.from_wei` (`client.py` lines 56-69): look up the unit
name for `decimals`; raise `ValueError` if there is none, otherwise
delegate to `web3.from_wei`. -/
def from_wei (value : ℤ) (decimals : ℕ) : Except ClientError ℚ :=
  match unit_name decimals with
  | none => .error (.unsupportedPrecision decimals)
  | some _ => .ok (web3_from_wei value decimals)

instance {ε α : Type} [DecidableEq ε] [DecidableEq α] : DecidableEq (Except ε α) :=
  fun x y =>
    match x, y with
    | .ok a, .ok b =>
      if h : a = b then .isTrue (by rw [h]) else .isFalse (by simp [h])
    | .error a, .error b =>
      if h : a = b then .isTrue (by rw [h]) else .isFalse (by simp [h])
    | .ok _, .error _ => .isFalse (by simp)
    | .error _, .ok _ => .isFalse (by simp)

/-- Token-contract handle built by `web3.eth.contract(address, abi)`: its
checksummed address and the ABI it was constructed from. -/
structure ContractHandle where
  address : String
  abi : String
  deriving DecidableEq, Repr

/-- State of a `Client` instance (`client.py` lines 20-34): signing
identity, the process-wide EIP-1559 flag, and the optional token binding
(`self.contract`, `self.contract_address`), both `None` initially. -/
structure Client where
  private_key : String
  address : String
  use_eip_1559 : Bool
  contract : Option ContractHandle := none
  contract_address : Option String := none
  deriving DecidableEq, Repr

/-- Answers of the external collaborators (RPC endpoint, token contract,
ABI file) consumed during one transfer attempt.  `build_transaction_error`
is `some reason` when the simulated token `transfer` call reverts with a
`ContractLogicError`; `load_abi` is the outcome of reading the ABI file. -/
structure Env where
  chain_id : ℕ
  transaction_count : ℕ
  gas_price : ℕ
  max_priority_fee : ℕ
  estimate_gas : ℕ
  get_balance : ℕ
  balance_of : ℕ
  decimals : ℕ
  build_transaction_error : Option String := none
  to_checksum_address : String → String
  load_abi : Except String String

/-- Model of `Client.set_contract` (`client.py` lines 36-39): load the ABI
(failures propagate before any state change), checksum the address, store
the checksummed address and the contract handle — overwriting any previous
binding without any guard. -/
def set_contract (c : Client) (env : Env) (contract_address : String) :
    Except ClientError Client :=
  match env.load_abi with
  | .error e => .error (.contractBindError e)
  | .ok abi =>
    let addr := env.to_checksum_address contract_address
    .ok { c with contract_address := some addr, contract := some ⟨addr, abi⟩ }

/-- Model of `Client._ensure_sufficient_funds` (`client.py` lines 150-180):
fetch the native balance and convert it via `web3.from_wei(…, "ether")`;
bare-raise if it is below `gas_cost`; then, when a token is bound, fetch the
token balance, convert it via `Client.from_wei` at the token's `decimals()`
(which may raise `ValueError` for unsupported precision) and bare-raise when
it is below `value`; when unbound, bare-raise when the native balance is
below `value + gas_cost`; otherwise return `True`. -/
def ensure_sufficient_funds (c : Client) (env : Env) (value gas_cost : ℚ) :
    Except ClientError Bool :=
  let native_balance := web3_from_wei (env.get_balance : ℤ) 18
  if native_balance < gas_cost then .error (.gasShortfall gas_cost)
  else
    match c.contract with
    | some _ =>
      match from_wei (env.balance_of : ℤ) env.decimals with
      | .error e => .error e
      | .ok contract_balance =>
        if contract_balance < value then .error (.tokenShortfall contract_balance)
        else .ok true
    | none =>
      if native_balance < value + gas_cost then .error (.combinedShortfall value)
      else .ok true

/-- Accumulating `TxParams` dictionary of `prepare_transaction`: `chainId`,
`nonce`, `from`, then optionally a native `value`, the fee fields of the
active fee mode, the token-transfer call data with its destination (set by
`build_transaction` when a token is bound; modelled from the spec as the
`(recipient, baseUnitsAmount)` pair of the `transfer` entry point), and the
estimated `gas` limit.  Absent dictionary keys are `none`. -/
structure Tx where
  chainId : ℕ
  nonce : ℕ
  fromAddr : String
  value : Option ℤ := none
  gasPrice : Option ℤ := none
  maxPriorityFeePerGas : Option ℤ := none
  maxFeePerGas : Option ℤ := none
  toAddr : Option String := none
  data : Option (String × ℤ) := none
  gas : Option ℕ := none
  deriving DecidableEq, Repr

/-- Model of `Client.prepare_transaction` (`client.py` lines 71-123), step
by step: checksum the recipient; start the draft from `chainId`, `nonce`,
`from`; when unbound set `value := web3.to_wei(value, "ether")`; fill the
fee fields of the active fee mode and remember the fee-rate multiplier
(`max_fee` under EIP-1559, the adjusted `gas_price` otherwise, both
computed as `int(fetched * 1.05)` in binary64 floating point); when bound,
build the token `transfer(recipient, to_wei(value, decimals()))` call —
`to_wei`'s `ValueError` propagates uncaught, a `ContractLogicError` from
the simulated call is logged and re-raised; store the estimated gas limit;
compute `gas_cost = web3.from_wei(gas_limit * multiplier, "ether")`; run
the funds check, propagating its exception, and bare-raise if it returned a
falsy value; return the draft. -/
def prepare_transaction (c : Client) (env : Env) (recipient : String)
    (value : ℚ) : Except ClientError Tx :=
  let rcpt := env.to_checksum_address recipient
  let t1 : Tx :=
    { chainId := env.chain_id, nonce := env.transaction_count, fromAddr := c.address }
  let t2 :=
    if c.contract.isNone then { t1 with value := some (web3_to_wei value 18) } else t1
  let fee :=
    if c.use_eip_1559 then
      let max_fee := pyTimes105 (env.gas_price + env.max_priority_fee)
      ({ t2 with maxPriorityFeePerGas := some (env.max_priority_fee : ℤ),
                 maxFeePerGas := some max_fee }, max_fee)
    else
      let gas_price := pyTimes105 env.gas_price
      ({ t2 with gasPrice := some gas_price }, gas_price)
  let t3 := fee.1
  let gas_cost_multiplier := fee.2
  let built : Except ClientError Tx :=
    match c.contract with
    | none => .ok t3
    | some h =>
      match to_wei value env.decimals with
      | .error e => .error e
      | .ok amount =>
        match env.build_transaction_error with
        | some reason => .error (.contractLogicError reason)
        | none => .ok { t3 with toAddr := some h.address, data := some (rcpt, amount) }
  match built with
  | .error e => .error e
  | .ok t4 =>
    let gas_limit := env.estimate_gas
    let t5 := { t4 with gas := some gas_limit }
    let gas_cost := web3_from_wei ((gas_limit : ℤ) * gas_cost_multiplier) 18
    match ensure_sufficient_funds c env value gas_cost with
    | .error e => .error e
    | .ok ok => if ok then .ok t5 else .error .insufficientFundsFallback

/-- A transaction receipt; `main.py` reads its `status` field. -/
structure TxReceipt where
  status : ℕ
  deriving DecidableEq, Repr

/-- Modelled from the spec: `web3.eth.wait_for_transaction_receipt`
(external library, not in `src/`) blocks until the transaction is mined or
its default 120-second timeout elapses, raising `TimeExhausted` on timeout.
`mined_at` is the second at which the transaction's receipt becomes
available (`none` when it never mines); the result is `none` exactly when
the wait times out. -/
def wait_for_transaction_receipt (mined_at : Option ℕ) (receipt : TxReceipt) :
    Option TxReceipt :=
  match mined_at with
  | some t => if t ≤ 120 then some receipt else none
  | none => none

/-- Model of `Client.wait_for_transaction` (`client.py` lines 141-148):
delegate to `web3.eth.wait_for_transaction_receipt`; on `TimeExhausted` log
the 120-second failure and re-raise (the `ConfirmationTimeout` of the
spec); no retry. -/
def wait_for_transaction (mined_at : Option ℕ) (receipt : TxReceipt) :
    Except ClientError TxReceipt :=
  match wait_for_transaction_receipt mined_at receipt with
  | some r => .ok r
  | none => .error .confirmationTimeout

/-- Concrete environment used by witnesses and counterexamples: fetched
gas price (used as base fee under EIP-1559) 100 wei, priority fee 10 wei,
gas estimate 21000, identity checksummer, a loadable ABI. -/
def mkEnv (balance_wei : ℕ) (token_balance : ℕ) (dec : ℕ) : Env :=
  { chain_id := 1
    transaction_count := 0
    gas_price := 100
    max_priority_fee := 10
    estimate_gas := 21000
    get_balance := balance_wei
    balance_of := token_balance
    decimals := dec
    build_transaction_error := none
    to_checksum_address := fun s => s
    load_abi := .ok ("erc20") }

/-- Concrete unbound client in EIP-1559 mode. -/
def uclient : Client :=
  { private_key := "0xkey", address := "0xSender", use_eip_1559 := true }

/-- Concrete client bound to a token contract, EIP-1559 mode. -/
def bclient : Client :=
  { uclient with contract := some ⟨"0xToken", "erc20"⟩,
                 contract_address := some ("0xToken") }

/-- The draft produced by `prepare_transaction` for the concrete unbound
run used by the fee-claim witnesses. -/
def c1_tx : Tx :=
  { chainId := 1, nonce := 0, fromAddr := "0xSender",
    value := some (web3_to_wei 1 18), maxPriorityFeePerGas := some 10,
    maxFeePerGas := some 115, gas := some 21000 }

/-- Concrete environment for the bound-transfer witness: plenty of native
and token balance, token decimals 6. -/
def c7_env : Env := mkEnv (10 ^ 19) (10 ^ 7) 6

/-- The draft produced by `prepare_transaction` for the concrete bound run
used by the conversion-claim witness. -/
def c7_tx : Tx :=
  { chainId := 1, nonce := 0, fromAddr := "0xSender",
    maxPriorityFeePerGas := some 10, maxFeePerGas := some 115,
    toAddr := some ("0xToken"), data := some ("0xR", web3_to_wei (5 / 2) 6),
    gas := some 21000 }

/-- Observable test: did the funds check return `False`?  (`client.py`
could only reach the `raise` on line 121 through such a result.) -/
def is_ok_false : Except ClientError Bool → Bool
  | .ok false => true
  | _ => false

/-- Observable test: is this outcome the bare raise of `client.py` line 121
(the fallback for a falsy funds-check result)? -/
def is_fallback_error : Except ClientError Tx → Bool
  | .error .insufficientFundsFallback => true
  | _ => false

/-- Observable test: is this outcome the combined-shortfall failure of
`client.py` line 178? -/
def is_combined_shortfall : Except ClientError Bool → Bool
  | .error (.combinedShortfall _) => true
  | _ => false

set_option maxRecDepth 4000

/-- Evaluation of the fee markup at the sum 110: the binary64 product
`110 * 1.05` is exactly `115.5`, and `int()` truncates it to 115. -/
theorem pyTimes105_110 : pyTimes105 110 = 115 := by with_unfolding_all decide

/-- Evaluation of the fee markup at 200: the binary64 product `200 * 1.05`
is exactly `210.0`, and `int()` returns 210. -/
theorem pyTimes105_200 : pyTimes105 200 = 210 := by with_unfolding_all decide

/-- A `from_wei` failure is exactly an unsupported-precision failure. -/
theorem from_wei_error_iff (n : ℤ) (d : ℕ) (e : ClientError) :
    from_wei n d = .error e ↔ unit_name d = none ∧ e = .unsupportedPrecision d := by
  cases hu : unit_name d with
  | none => simp [from_wei, hu, eq_comm]
  | some u => simp [from_wei, hu]

/-- A `to_wei` failure is exactly an unsupported-precision failure. -/
theorem to_wei_error_iff (x : ℚ) (d : ℕ) (e : ClientError) :
    to_wei x d = .error e ↔ unit_name d = none ∧ e = .unsupportedPrecision d := by
  cases hu : unit_name d with
  | none => simp [to_wei, hu, eq_comm]
  | some u => simp [to_wei, hu]

/-- A successful `to_wei` always returns the exact scaled conversion. -/
theorem to_wei_ok_val (x : ℚ) (d : ℕ) (n : ℤ) (h : to_wei x d = .ok n) :
    n = web3_to_wei x d ∧ to_wei x d = .ok (web3_to_wei x d) := by
  cases hu : unit_name d with
  | none => simp [to_wei, hu] at h
  | some u =>
    simp only [to_wei, hu] at h ⊢
    injection h with h1
    subst h1
    exact ⟨rfl, trivial⟩

/-- When the funds check returns at all, the returned Boolean is `True`. -/
theorem ensure_ok_true (c : Client) (env : Env) (value gas_cost : ℚ) (b : Bool)
    (h : ensure_sufficient_funds c env value gas_cost = .ok b) : b = true := by
  simp only [ensure_sufficient_funds] at h
  repeat' split at h
  all_goals simp_all

/-- The funds check never produces the error of the caller's fallback
branch (`client.py` line 121). -/
theorem ensure_error_cases (c : Client) (env : Env) (value gas_cost : ℚ)
    (e : ClientError)
    (h : ensure_sufficient_funds c env value gas_cost = .error e) :
    e ≠ .insufficientFundsFallback := by
  intro hfalse
  subst hfalse
  simp only [ensure_sufficient_funds] at h
  repeat' split at h
  all_goals simp_all [from_wei_error_iff]

/-- Characterization of every successful `prepare_transaction` result: the
draft is exactly the native-transfer record (unbound) or exactly the
token-transfer record (bound), with the fee fields of the active mode. -/
theorem prepare_transaction_ok_cases (c : Client) (env : Env) (r : String) (v : ℚ)
    (t : Tx) (hok : prepare_transaction c env r v = .ok t) :
    (c.contract = none ∧
      t = { chainId := env.chain_id, nonce := env.transaction_count,
            fromAddr := c.address, value := some (web3_to_wei v 18),
            gasPrice := if c.use_eip_1559 then none else some (pyTimes105 env.gas_price),
            maxPriorityFeePerGas :=
              if c.use_eip_1559 then some (env.max_priority_fee : ℤ) else none,
            maxFeePerGas :=
              if c.use_eip_1559 then
                some (pyTimes105 (env.gas_price + env.max_priority_fee)) else none,
            toAddr := none, data := none, gas := some env.estimate_gas })
      ∨ ∃ h : ContractHandle, c.contract = some h
          ∧ to_wei v env.decimals = .ok (web3_to_wei v env.decimals)
          ∧ t = { chainId := env.chain_id, nonce := env.transaction_count,
                  fromAddr := c.address, value := none,
                  gasPrice :=
                    if c.use_eip_1559 then none else some (pyTimes105 env.gas_price),
                  maxPriorityFeePerGas :=
                    if c.use_eip_1559 then some (env.max_priority_fee : ℤ) else none,
                  maxFeePerGas :=
                    if c.use_eip_1559 then
                      some (pyTimes105 (env.gas_price + env.max_priority_fee)) else none,
                  toAddr := some h.address,
                  data := some (env.to_checksum_address r, web3_to_wei v env.decimals),
                  gas := some env.estimate_gas } := by
  cases hc : c.contract with
  | none =>
    left
    refine ⟨rfl, ?_⟩
    simp only [prepare_transaction, hc, Option.isNone_none] at hok
    split at hok
    · cases hok
    · rename_i b heq
      split at hok
      · injection hok with h5
        subst h5
        cases he : c.use_eip_1559 <;> simp [he]
      · cases hok
  | some h =>
    simp only [prepare_transaction, hc, Option.isNone_some] at hok
    cases htw : to_wei v env.decimals with
    | error e =>
      simp only [htw] at hok
      cases hok
    | ok amount =>
      obtain ⟨hval, htw2⟩ := to_wei_ok_val v env.decimals amount htw
      subst hval
      cases hb : env.build_transaction_error with
      | some reason =>
        simp only [htw, hb] at hok
        cases hok
      | none =>
        simp only [htw, hb] at hok
        split at hok
        · cases hok
        · rename_i b heq
          split at hok
          · right
            refine ⟨h, rfl, rfl, ?_⟩
            injection hok with h5
            subst h5
            cases he : c.use_eip_1559 <;> simp [he]
          · cases hok

/-- Concrete evaluation of a successful unbound `prepare_transaction` run
with fetched base fee 100 wei, priority fee 10 wei, balance 10 coins. -/
theorem prepare_eval_native :
    prepare_transaction uclient (mkEnv (10 ^ 19) 0 18) ("0xRecipient") 1
      = .ok c1_tx := by
  have h110 : (100 : ℕ) + 10 = 110 := by norm_num
  simp [prepare_transaction, mkEnv, uclient, c1_tx, h110, pyTimes105_110,
    ensure_sufficient_funds, web3_from_wei, to_wei, from_wei, unit_name]
  norm_num

/-- Concrete evaluation of a successful bound `prepare_transaction` run,
token decimals 6, transferring 2.5 tokens. -/
theorem prepare_eval_token :
    prepare_transaction bclient c7_env ("0xR") (5 / 2) = .ok c7_tx := by
  have h110 : (100 : ℕ) + 10 = 110 := by norm_num
  simp [prepare_transaction, bclient, uclient, c7_env, c7_tx, mkEnv, h110,
    pyTimes105_110, ensure_sufficient_funds, web3_from_wei, to_wei, from_wei,
    unit_name]
  norm_num

/-- Claim C1 counterexample: with fetched base fee 100 and priority fee 10
under EIP-1559 mode, the draft's maxFeePerGas is 115, not the claimed
ceil(110 * 1.05) = 116 — Python evaluates `int((100 + 10) * 1.05)` in
binary64, where the product is exactly 115.5 and `int()` truncates. -/
theorem prepare_transaction_fee_counterexample :
    (prepare_transaction uclient (mkEnv (10 ^ 19) 0 18) ("0xRecipient") 1).map
        Tx.maxFeePerGas = .ok (some 115) ∧ (115 : ℤ) ≠ 116 := by
  refine ⟨?_, by decide⟩
  rw [prepare_eval_native]
  rfl

/-- Claim C1 (amended): under EIP-1559 mode the draft's maxPriorityFeePerGas
equals the fetched priority fee and maxFeePerGas equals
`int((baseFee + priorityFee) * 1.05)` evaluated in IEEE-754 binary64
floating point and truncated toward zero (not an exact ceiling); under
legacy mode the draft's gasPrice equals `int(fetchedGasPrice * 1.05)`
likewise; for baseFee 100 and priorityFee 10 the computed maxFeePerGas is
115, and for fetched gasPrice 200 the adjusted gasPrice is 210. -/
theorem prepare_transaction_fee_fields (c : Client) (env : Env) (r : String)
    (v : ℚ) (t : Tx) (hok : prepare_transaction c env r v = .ok t) :
    (c.use_eip_1559 = true →
        t.maxPriorityFeePerGas = some (env.max_priority_fee : ℤ)
          ∧ t.maxFeePerGas = some (pyTimes105 (env.gas_price + env.max_priority_fee)))
      ∧ (c.use_eip_1559 = false → t.gasPrice = some (pyTimes105 env.gas_price))
      ∧ pyTimes105 (100 + 10) = 115 ∧ pyTimes105 200 = 210 := by
  have hcases := prepare_transaction_ok_cases c env r v t hok
  refine ⟨?_, ?_, pyTimes105_110, pyTimes105_200⟩
  · intro he
    rcases hcases with ⟨_, ht⟩ | ⟨h, _, _, ht⟩ <;> subst ht <;> simp [he]
  · intro he
    rcases hcases with ⟨_, ht⟩ | ⟨h, _, _, ht⟩ <;> subst ht <;> simp [he]

/-- Witness for the amended claim C1 at a concrete successful run. -/
theorem prepare_transaction_fee_fields_witness :
    (uclient.use_eip_1559 = true →
        c1_tx.maxPriorityFeePerGas = some (((mkEnv (10 ^ 19) 0 18).max_priority_fee : ℕ) : ℤ)
          ∧ c1_tx.maxFeePerGas
              = some (pyTimes105 ((mkEnv (10 ^ 19) 0 18).gas_price
                  + (mkEnv (10 ^ 19) 0 18).max_priority_fee)))
      ∧ (uclient.use_eip_1559 = false →
          c1_tx.gasPrice = some (pyTimes105 (mkEnv (10 ^ 19) 0 18).gas_price))
      ∧ pyTimes105 (100 + 10) = 115 ∧ pyTimes105 200 = 210 :=
  prepare_transaction_fee_fields uclient (mkEnv (10 ^ 19) 0 18) ("0xRecipient") 1
    c1_tx prepare_eval_native

/-- Claim C2 counterexample: with native balance 5, requested amount 50 and
estimated gas cost 10, the balance is below amount + gas cost, yet the
check fails at the gas-shortfall raise (`client.py` line 160), not with the
combined-shortfall failure the claim names for every such input. -/
theorem ensure_funds_native_counterexample :
    ensure_sufficient_funds uclient (mkEnv (5 * 10 ^ 18) 0 18) 50 10
        = .error (.gasShortfall 10)
      ∧ is_combined_shortfall
          (ensure_sufficient_funds uclient (mkEnv (5 * 10 ^ 18) 0 18) 50 10) = false
      ∧ web3_from_wei (((mkEnv (5 * 10 ^ 18) 0 18).get_balance : ℕ) : ℤ) 18 < 50 + 10 := by
  have h : ensure_sufficient_funds uclient (mkEnv (5 * 10 ^ 18) 0 18) 50 10
      = .error (.gasShortfall 10) := by
    norm_num [ensure_sufficient_funds, mkEnv, uclient, web3_from_wei]
  refine ⟨h, by rw [h]; rfl, by norm_num [mkEnv, web3_from_wei]⟩

/-- Claim C2 (amended): for a native (unbound) transfer with a nonnegative
requested amount, funds verification succeeds whenever the native balance
is at least amount + gas cost; it fails with the combined-shortfall raise
when gas cost ≤ balance < amount + gas cost, and with the earlier
gas-shortfall raise when balance < gas cost. -/
theorem ensure_funds_native (c : Client) (env : Env) (value gas_cost : ℚ)
    (hc : c.contract = none) (hv : 0 ≤ value) :
    (value + gas_cost ≤ web3_from_wei (env.get_balance : ℤ) 18 →
        ensure_sufficient_funds c env value gas_cost = .ok true)
      ∧ (gas_cost ≤ web3_from_wei (env.get_balance : ℤ) 18 →
          web3_from_wei (env.get_balance : ℤ) 18 < value + gas_cost →
          ensure_sufficient_funds c env value gas_cost
            = .error (.combinedShortfall value))
      ∧ (web3_from_wei (env.get_balance : ℤ) 18 < gas_cost →
          ensure_sufficient_funds c env value gas_cost
            = .error (.gasShortfall gas_cost)) := by
  refine ⟨?_, ?_, ?_⟩
  · intro h
    have h2 : ¬ web3_from_wei (env.get_balance : ℤ) 18 < gas_cost :=
      not_lt.2 (by linarith)
    have h3 : ¬ web3_from_wei (env.get_balance : ℤ) 18 < value + gas_cost := not_lt.2 h
    simp only [ensure_sufficient_funds, hc, if_neg h2, if_neg h3]
  · intro h1 h2
    simp only [ensure_sufficient_funds, hc, if_neg (not_lt.2 h1), if_pos h2]
  · intro h
    simp only [ensure_sufficient_funds, if_pos h]

/-- Witness for the amended claim C2: balance 100 with amount 50 and gas
cost 10 succeeds, balance 55 fails with the combined shortfall. -/
theorem ensure_funds_native_witness :
    ensure_sufficient_funds uclient (mkEnv (100 * 10 ^ 18) 0 18) 50 10 = .ok true
      ∧ ensure_sufficient_funds uclient (mkEnv (55 * 10 ^ 18) 0 18) 50 10
          = .error (.combinedShortfall 50) :=
  ⟨(ensure_funds_native uclient (mkEnv (100 * 10 ^ 18) 0 18) 50 10 rfl
        (by norm_num)).1 (by norm_num [mkEnv, web3_from_wei]),
   (ensure_funds_native uclient (mkEnv (55 * 10 ^ 18) 0 18) 50 10 rfl
        (by norm_num)).2.1 (by norm_num [mkEnv, web3_from_wei])
     (by norm_num [mkEnv, web3_from_wei])⟩

/-- Claim C3: for a token (bound) transfer with supported token decimals,
the check fails with the gas-shortfall raise whenever the native balance is
below the gas cost, regardless of the token balance; otherwise it fails
with the token-shortfall raise whenever the converted token balance is
below the requested amount; otherwise it succeeds, with no combined
native-plus-token comparison. -/
theorem ensure_funds_token (c : Client) (env : Env) (value gas_cost : ℚ)
    (hc : c.contract.isSome = true)
    (hd : env.decimals = 6 ∨ env.decimals = 9 ∨ env.decimals = 18) :
    (web3_from_wei (env.get_balance : ℤ) 18 < gas_cost →
        ensure_sufficient_funds c env value gas_cost
          = .error (.gasShortfall gas_cost))
      ∧ (gas_cost ≤ web3_from_wei (env.get_balance : ℤ) 18 →
          web3_from_wei (env.balance_of : ℤ) env.decimals < value →
          ensure_sufficient_funds c env value gas_cost
            = .error (.tokenShortfall (web3_from_wei (env.balance_of : ℤ) env.decimals)))
      ∧ (gas_cost ≤ web3_from_wei (env.get_balance : ℤ) 18 →
          value ≤ web3_from_wei (env.balance_of : ℤ) env.decimals →
          ensure_sufficient_funds c env value gas_cost = .ok true) := by
  obtain ⟨h, hcs⟩ := Option.isSome_iff_exists.1 hc
  have hu : ∃ u, unit_name env.decimals = some u := by
    rcases hd with h' | h' | h' <;> rw [h'] <;> exact ⟨_, rfl⟩
  obtain ⟨u, hu⟩ := hu
  have hfw : from_wei (env.balance_of : ℤ) env.decimals
      = .ok (web3_from_wei (env.balance_of : ℤ) env.decimals) := by
    simp only [from_wei, hu]
  refine ⟨?_, ?_, ?_⟩
  · intro hlt
    simp only [ensure_sufficient_funds, if_pos hlt]
  · intro h1 h2
    simp only [ensure_sufficient_funds, hcs, hfw, if_neg (not_lt.2 h1), if_pos h2]
  · intro h1 h2
    simp only [ensure_sufficient_funds, hcs, hfw, if_neg (not_lt.2 h1),
      if_neg (not_lt.2 h2)]

/-- Witness for claim C3 at the spec's example points: native balance 5
with gas cost 10 fails with the gas shortfall regardless of a huge token
balance; native 20, token 30, amount 40 fails with the token shortfall;
native 20 with token 60 and amount 40 succeeds even though 20 < 40 + 10,
showing the absence of a combined check. -/
theorem ensure_funds_token_witness :
    ensure_sufficient_funds bclient (mkEnv (5 * 10 ^ 18) (999 * 10 ^ 6) 6) 40 10
        = .error (.gasShortfall 10)
      ∧ ensure_sufficient_funds bclient (mkEnv (20 * 10 ^ 18) (30 * 10 ^ 6) 6) 40 10
          = .error (.tokenShortfall
              (web3_from_wei (((mkEnv (20 * 10 ^ 18) (30 * 10 ^ 6) 6).balance_of : ℕ) : ℤ)
                (mkEnv (20 * 10 ^ 18) (30 * 10 ^ 6) 6).decimals))
      ∧ ensure_sufficient_funds bclient (mkEnv (20 * 10 ^ 18) (60 * 10 ^ 6) 6) 40 10
          = .ok true :=
  ⟨(ensure_funds_token bclient (mkEnv (5 * 10 ^ 18) (999 * 10 ^ 6) 6) 40 10 rfl
        (Or.inl rfl)).1 (by norm_num [mkEnv, web3_from_wei]),
   (ensure_funds_token bclient (mkEnv (20 * 10 ^ 18) (30 * 10 ^ 6) 6) 40 10 rfl
        (Or.inl rfl)).2.1 (by norm_num [mkEnv, web3_from_wei])
     (by norm_num [mkEnv, web3_from_wei]),
   (ensure_funds_token bclient (mkEnv (20 * 10 ^ 18) (60 * 10 ^ 6) 6) 40 10 rfl
        (Or.inl rfl)).2.2 (by norm_num [mkEnv, web3_from_wei])
     (by norm_num [mkEnv, web3_from_wei])⟩

/-- Claim C4: for every supported decimals value and every nonnegative
amount exactly representable at that precision, converting to base units
and back is the identity — no precision is lost. -/
theorem to_wei_from_wei_roundtrip (d : ℕ) (x : ℚ)
    (hd : d = 6 ∨ d = 9 ∨ d = 18) (hx : 0 ≤ x) (hrep : (x * 10 ^ d).den = 1) :
    (to_wei x d).bind (fun n => from_wei n d) = .ok x := by
  have hu : ∃ u, unit_name d = some u := by
    rcases hd with h | h | h <;> subst h <;> exact ⟨_, rfl⟩
  obtain ⟨u, hu⟩ := hu
  have hpow : (0 : ℚ) < 10 ^ d := by positivity
  have hnn : 0 ≤ x * 10 ^ d := by positivity
  have hint : ((x * 10 ^ d).num : ℚ) = x * 10 ^ d := Rat.coe_int_num_of_den_eq_one hrep
  have h1 : web3_to_wei x d = (x * 10 ^ d).num := by
    rw [web3_to_wei, truncToward0, if_neg (not_lt.2 hnn)]
    nth_rewrite 1 [← hint]
    rw [Int.floor_intCast]
  have h0 : to_wei x d = .ok ((x * 10 ^ d).num) := by
    simp only [to_wei, hu, h1]
  rw [h0]
  show from_wei ((x * 10 ^ d).num) d = .ok x
  simp only [from_wei, hu, web3_from_wei, hint]
  rw [mul_div_cancel_right₀ x hpow.ne.symm]

/-- Witness for claim C4: 2.5 tokens at 6 decimals round-trips exactly. -/
theorem to_wei_from_wei_roundtrip_witness :
    (to_wei (5 / 2) 6).bind (fun n => from_wei n 6) = .ok (5 / 2) :=
  to_wei_from_wei_roundtrip 6 (5 / 2) (Or.inl rfl) (by norm_num) (by norm_num)

/-- Claim C5: for every decimals value outside 6, 9, 18 both converter
operations fail with the unsupported-precision error, for any input. -/
theorem unsupported_precision_rejected (d : ℕ)
    (hd : ¬(d = 6 ∨ d = 9 ∨ d = 18)) (x : ℚ) (n : ℤ) :
    to_wei x d = .error (.unsupportedPrecision d)
      ∧ from_wei n d = .error (.unsupportedPrecision d) := by
  push_neg at hd
  obtain ⟨h6, h9, h18⟩ := hd
  have hu : unit_name d = none := by
    rw [unit_name, if_neg h6, if_neg h9, if_neg h18]
  exact ⟨by simp only [to_wei, hu], by simp only [from_wei, hu]⟩

/-- Witness for claim C5 at decimals 7. -/
theorem unsupported_precision_rejected_witness :
    to_wei 1 7 = .error (.unsupportedPrecision 7)
      ∧ from_wei 1 7 = .error (.unsupportedPrecision 7) :=
  unsupported_precision_rejected 7 (by decide) 1 1

/-- Claim C6 (code bug): the insufficient-funds failure paths are bare
`raise` statements with no active exception, so the exception surfaced to
the caller carries no error payload — here, a native transfer with balance
55, amount 50 and gas cost 10 takes the combined-shortfall path
(`client.py` line 178) whose raised error carries no payload, contradicting
the claim that every failure carries concrete context. -/
theorem insufficient_funds_bare_raise :
    ensure_sufficient_funds uclient (mkEnv (55 * 10 ^ 18) 0 18) 50 10
        = .error (.combinedShortfall 50)
      ∧ carries_payload_to_caller (.combinedShortfall 50) = false := by
  constructor
  · norm_num [ensure_sufficient_funds, mkEnv, uclient, web3_from_wei]
  · rfl

/-- Claim C7: an unbound draft carries the amount converted at 18 decimals
in its native `value` field and no call data; a bound draft carries no
native `value` and instead the transfer call data with the amount converted
at the token's own decimals. -/
theorem prepare_transaction_amount_conversion (c : Client) (env : Env) (r : String)
    (v : ℚ) (t : Tx) (hok : prepare_transaction c env r v = .ok t) :
    (c.contract = none →
        t.value = some (web3_to_wei v 18) ∧ t.data = none ∧ t.toAddr = none)
      ∧ ∀ h : ContractHandle, c.contract = some h →
          t.value = none
            ∧ to_wei v env.decimals = .ok (web3_to_wei v env.decimals)
            ∧ t.data = some (env.to_checksum_address r, web3_to_wei v env.decimals)
            ∧ t.toAddr = some h.address := by
  have hcases := prepare_transaction_ok_cases c env r v t hok
  constructor
  · intro hc
    rcases hcases with ⟨_, ht⟩ | ⟨h, hc2, _, _⟩
    · subst ht; simp
    · rw [hc] at hc2; cases hc2
  · intro h hc
    rcases hcases with ⟨hc2, _⟩ | ⟨h2, hc2, htw, ht⟩
    · rw [hc] at hc2; cases hc2
    · rw [hc] at hc2
      injection hc2 with hh
      subst hh
      subst ht
      exact ⟨rfl, htw, rfl, rfl⟩

/-- Witness for claim C7 at a concrete bound run with token decimals 6. -/
theorem prepare_transaction_amount_conversion_witness :
    (bclient.contract = none →
        c7_tx.value = some (web3_to_wei (5 / 2) 18) ∧ c7_tx.data = none
          ∧ c7_tx.toAddr = none)
      ∧ ∀ h : ContractHandle, bclient.contract = some h →
          c7_tx.value = none
            ∧ to_wei (5 / 2) c7_env.decimals
                = .ok (web3_to_wei (5 / 2) c7_env.decimals)
            ∧ c7_tx.data
                = some (c7_env.to_checksum_address ("0xR"),
                    web3_to_wei (5 / 2) c7_env.decimals)
            ∧ c7_tx.toAddr = some h.address :=
  prepare_transaction_amount_conversion bclient c7_env ("0xR") (5 / 2) c7_tx
    prepare_eval_token

/-- Claim C8: the confirmation wait returns the receipt when the
transaction mines within the 120-second window of the external wait, fails
with the confirmation timeout when it does not, and performs no retry
(modelled from the spec: the bounded wait itself is
`web3.eth.wait_for_transaction_receipt`, an external collaborator). -/
theorem wait_for_transaction_timeout (mined_at : Option ℕ) (receipt : TxReceipt) :
    ((∀ t, mined_at = some t → 120 < t) →
        wait_for_transaction mined_at receipt = .error .confirmationTimeout)
      ∧ (∀ t, mined_at = some t → t ≤ 120 →
          wait_for_transaction mined_at receipt = .ok receipt) := by
  constructor
  · intro h
    cases hm : mined_at with
    | none => simp [wait_for_transaction, wait_for_transaction_receipt]
    | some t =>
      have := h t hm
      simp [wait_for_transaction, wait_for_transaction_receipt, hm, Nat.not_le.2 this]
  · intro t hm ht
    simp [wait_for_transaction, wait_for_transaction_receipt, hm, ht]

/-- Witness for claim C8: a never-mining hash times out with the
confirmation timeout; a hash mined at second 5 yields its receipt. -/
theorem wait_for_transaction_timeout_witness :
    wait_for_transaction none ⟨1⟩ = .error .confirmationTimeout
      ∧ wait_for_transaction (some 5) ⟨1⟩ = .ok ⟨1⟩ :=
  ⟨(wait_for_transaction_timeout none ⟨1⟩).1 (by intro t ht; cases ht),
   (wait_for_transaction_timeout (some 5) ⟨1⟩).2 5 rfl (by norm_num)⟩

/-- Claim C9: binding twice succeeds without error and the second binding
(its checksummed address and contract handle) overwrites the first; every
successful bind leaves the client bound, and since `set_contract` is the
only operation of the source that assigns the binding fields, a client
never returns to the unbound state. -/
theorem set_contract_rebind (c : Client) (env1 env2 : Env) (a1 a2 : String)
    (abi1 abi2 : String) (h1 : env1.load_abi = .ok abi1)
    (h2 : env2.load_abi = .ok abi2) :
    (set_contract c env1 a1).bind (fun c1 => set_contract c1 env2 a2)
        = .ok { c with contract_address := some (env2.to_checksum_address a2),
                       contract := some ⟨env2.to_checksum_address a2, abi2⟩ }
      ∧ ∀ (c' : Client) (env' : Env) (a' : String) (c'' : Client),
          set_contract c' env' a' = .ok c'' → c''.contract ≠ none := by
  constructor
  · simp only [set_contract, h1, h2, Except.bind]
  · intro c' env' a' c'' hset
    simp only [set_contract] at hset
    cases hl : env'.load_abi with
    | error e => rw [hl] at hset; cases hset
    | ok abi => rw [hl] at hset; cases hset; simp

/-- Witness for claim C9: two successive binds of the same client leave
the second address and handle active. -/
theorem set_contract_rebind_witness :
    (set_contract uclient (mkEnv 0 0 6) ("0xA")).bind
        (fun c1 => set_contract c1 (mkEnv 0 0 6) ("0xB"))
        = .ok { uclient with
                contract_address := some ((mkEnv 0 0 6).to_checksum_address ("0xB")),
                contract := some ⟨(mkEnv 0 0 6).to_checksum_address ("0xB"), "erc20"⟩ }
      ∧ ∀ (c' : Client) (env' : Env) (a' : String) (c'' : Client),
          set_contract c' env' a' = .ok c'' → c''.contract ≠ none :=
  set_contract_rebind uclient (mkEnv 0 0 6) (mkEnv 0 0 6) ("0xA") ("0xB")
    ("erc20") ("erc20") rfl rfl

/-- Claim C10: the funds check never returns `False` — it raises or returns
`True` — so the caller's fallback branch that bare-raises on a falsy result
(`client.py` line 121) is unreachable: no `prepare_transaction` outcome is
that fallback error. -/
theorem ensure_never_false (c : Client) (env : Env) :
    (∀ value gas_cost : ℚ,
        is_ok_false (ensure_sufficient_funds c env value gas_cost) = false)
      ∧ ∀ (r : String) (v : ℚ),
          is_fallback_error (prepare_transaction c env r v) = false := by
  constructor
  · intro value gas_cost
    cases hres : ensure_sufficient_funds c env value gas_cost with
    | error e => rfl
    | ok b =>
      have hb := ensure_ok_true c env value gas_cost b hres
      subst hb
      rfl
  · intro r v
    cases hc : c.contract with
    | none =>
      simp only [prepare_transaction, hc, Option.isNone_none]
      split
      · rename_i e heq
        have hne := ensure_error_cases c env _ _ e heq
        cases e <;> simp_all [is_fallback_error]
      · rename_i b heq
        split
        · rfl
        · rename_i hb
          exact absurd (ensure_ok_true c env _ _ b heq) hb
    | some h =>
      simp only [prepare_transaction, hc, Option.isNone_some]
      cases htw : to_wei v env.decimals with
      | error e =>
        simp only [htw]
        rw [to_wei_error_iff] at htw
        cases e <;> simp_all [is_fallback_error]
      | ok amount =>
        simp only [htw]
        cases hb : env.build_transaction_error with
        | some reason => simp only [hb]; rfl
        | none =>
          simp only [hb]
          split
          · rename_i e heq2
            have hne := ensure_error_cases c env _ _ e heq2
            cases e <;> simp_all [is_fallback_error]
          · rename_i b heq2
            split
            · rfl
            · rename_i hbf
              exact absurd (ensure_ok_true c env _ _ b heq2) hbf

end EVMTransfer
